import Mathlib

/-!
Verification of the failover-ethclient facade (package `ethclient`).

The Go sources embedded here are:
- `ethclient.go`: the `client` struct, `New`, `shouldFailover`, and ~33
  operation methods that all share one dispatch pattern (try primary,
  observe, classify error, optionally try secondary, observe, return).
- `prometheus.go`: the `metrics` aggregates (`newMetrics`) and `Observe`.
- the config file: `Config` and `Config.Valid`.

Modelling conventions:
- Go `error` values are `Option GoError`: `none` is Go `nil`; the sentinels
  `context.Canceled` and `context.DeadlineExceeded` are the constructors
  `GoError.canceled` and `GoError.deadlineExceeded`; every other error is
  `GoError.other msg`. Go compares the sentinels with `==`, which the
  `DecidableEq` equality on `GoError` mirrors.
- A Go runtime panic (here: nil-pointer dereference) is the `err`
  constructor of `GoResult GoPanic _`; normal completion is `ok`.
- The `*metrics` pointer held by the client is `Option`: `none` is a nil
  pointer. Its observable per-call effect is the stream of label tuples
  passed to `Observe` (each call increments the counter and records one
  latency sample under the same `{method, client, success}` labels), so the
  dynamic state is modelled as the `List Observation` of calls so far.
- Remote calls are opaque: a physical-client invocation is its outcome, a
  pair `(result, error)` supplied as a parameter, and the dispatch model
  counts how many times the secondary outcome is consumed.
-/

namespace FailoverEthclient

/-- Go errors as seen by the facade: the two `context` sentinel errors,
compared by identity in the source, and all other errors. Go `nil` is
represented by `Option.none` at use sites. -/
inductive GoError where
  | canceled
  | deadlineExceeded
  | other (msg : String)
deriving DecidableEq, Repr

/-- Go runtime panics the model can produce: dereferencing a nil pointer. -/
inductive GoPanic where
  | nilPointerDereference
deriving DecidableEq, Repr

/-- Outcome of a Go computation that can fail (or panic, for `ε := GoPanic`). -/
inductive GoResult (ε α : Type) where
  | ok (val : α)
  | err (e : ε)
deriving DecidableEq, Repr

/-- The label tuple of one `metrics.Observe` call (`prometheus.go` lines
63-74): method name, client name, and `success = (err == nil)`. One
`Observe` call increments the request counter and records one latency
sample, both under this tuple. -/
structure Observation where
  method : String
  client : String
  success : Bool
deriving DecidableEq, Repr

/-- `Config` from the config file: prometheus toggle, the two endpoint
URLs and the two endpoint names. -/
structure Config where
  EnablePrometheus : Bool
  RpcUrl : String
  RpcName : String
  FailoverRpcUrl : String
  FailoverRpcName : String
deriving DecidableEq, Repr

/-- `nameLenLimit = 32` from the config file. -/
def nameLenLimit : Nat := 32

/-- `Config.Valid` (config file lines 23-31): errors when `len(c.RpcName)`
or `len(c.FailoverRpcName)` is at least `nameLenLimit`; otherwise ok.
Go `len` on a string is its byte length, hence `utf8ByteSize`. The
returned `fmt.Errorf` message is modelled as the error string; `none`
is the nil (ok) return. -/
def Config.Valid (c : Config) : Option String :=
  if nameLenLimit ≤ c.RpcName.utf8ByteSize then
    some ("invalid RpcName: " ++ c.RpcName)
  else if nameLenLimit ≤ c.FailoverRpcName.utf8ByteSize then
    some ("invalid RpcFailoverName: " ++ c.FailoverRpcName)
  else
    none

/-- `client.shouldFailover` (`ethclient.go` lines 77-82): false exactly for
the identity-compared sentinels `context.DeadlineExceeded` and
`context.Canceled`, true for every other error. It is only ever called
on a non-nil error, which the argument type `GoError` makes structural. -/
def shouldFailover (err : GoError) : Bool :=
  if err = GoError.deadlineExceeded then false
  else if err = GoError.canceled then false
  else true

/-- `metrics.Observe` (`prometheus.go` lines 63-74) as it acts on a
possibly-nil `*metrics` receiver. The source reads `s.req` with no nil
check, so a nil receiver (`none`) is a nil-pointer dereference panic;
otherwise the call appends one label tuple to the recorded stream. The
`startedAt` latency argument only feeds the histogram sample value and
carries no claim content, so it is not part of the tuple. -/
def Observe (s : Option (List Observation)) (method : String)
    (client : String) (successful : Bool) :
    GoResult GoPanic (List Observation) :=
  match s with
  | none => .err .nilPointerDereference
  | some recorded => .ok (recorded ++ [⟨method, client, successful⟩])

/-- What one operation dispatch produced: the final recorded metrics
stream, how many times the secondary connection was invoked, and the
`(result, err)` pair returned to the caller. -/
structure DispatchOutcome (ρ : Type) where
  recorded : List Observation
  secondaryCalls : Nat
  result : ρ
  err : Option GoError
deriving DecidableEq, Repr

/-- The operation body shared verbatim by every facade method
(`ethclient.go`, e.g. `BalanceAt` lines 84-101): invoke the primary,
observe with the primary name and `err == nil`; on nil error return the
primary result; on error, return it as-is unless `shouldFailover`, else
invoke the secondary once, observe with the failover name, and return
the secondary's `(result, err)` verbatim. `metricsHandle` is the
client's `*metrics` pointer; the second `Observe` reuses that same
pointer, which is non-nil whenever the first `Observe` returned. -/
def dispatch {ρ : Type} (metricsHandle : Option (List Observation))
    (opName rpcName failoverRpcName : String)
    (primaryCall secondaryCall : ρ × Option GoError) :
    GoResult GoPanic (DispatchOutcome ρ) :=
  let (r, err) := primaryCall
  match Observe metricsHandle opName rpcName err.isNone with
  | .err p => .err p
  | .ok recorded =>
    match err with
    | some e =>
      if !shouldFailover e then
        .ok ⟨recorded, 0, r, some e⟩
      else
        let (r2, err2) := secondaryCall
        match Observe (some recorded) opName failoverRpcName err2.isNone with
        | .err p => .err p
        | .ok recorded2 => .ok ⟨recorded2, 1, r2, err2⟩
    | none => .ok ⟨recorded, 0, r, none⟩

/-- `client.BalanceAt` (`ethclient.go` lines 84-101): the dispatch body
with op name and metric label `"BalanceAt"`. The account and block
arguments only select the physical calls' outcomes, which are the two
pair parameters; `ρ` stands for the opaque `*big.Int` result. -/
def BalanceAt {ρ : Type} (metricsHandle : Option (List Observation))
    (rpcName failoverRpcName : String)
    (primaryCall secondaryCall : ρ × Option GoError) :
    GoResult GoPanic (DispatchOutcome ρ) :=
  dispatch metricsHandle "BalanceAt" rpcName failoverRpcName
    primaryCall secondaryCall

/-- `client.TransactionByHash` (`ethclient.go` lines 621-638): the dispatch
body for the transaction-by-hash lookup. Both of its `Observe` calls in
the source pass the method label `"BalanceAtTransactionByHash"`, not
`"TransactionByHash"`; `ρ` stands for the opaque `(tx, isPending)`
result pair. -/
def TransactionByHash {ρ : Type} (metricsHandle : Option (List Observation))
    (rpcName failoverRpcName : String)
    (primaryCall secondaryCall : ρ × Option GoError) :
    GoResult GoPanic (DispatchOutcome ρ) :=
  dispatch metricsHandle "BalanceAtTransactionByHash" rpcName failoverRpcName
    primaryCall secondaryCall

/-- For each facade method carrying metrics (every method of
`ethclient.go` except `Close`), the pair of its Go method name and the
method label string its `Observe` calls pass, transcribed in source
order. Within each method the primary and failover `Observe` use the
same label. -/
def opMetricLabels : List (String × String) :=
  [("BalanceAt", "BalanceAt"),
   ("BlockByHash", "BlockByHash"),
   ("BlockByNumber", "BlockByNumber"),
   ("BlockNumber", "BlockNumber"),
   ("CallContract", "CallContract"),
   ("CallContractAtHash", "CallContractAtHash"),
   ("ChainID", "ChainID"),
   ("CodeAt", "CodeAt"),
   ("EstimateGas", "EstimateGas"),
   ("FilterLogs", "FilterLogs"),
   ("HeaderByHash", "HeaderByHash"),
   ("HeaderByNumber", "HeaderByNumber"),
   ("NetworkID", "NetworkID"),
   ("NonceAt", "NonceAt"),
   ("PeerCount", "PeerCount"),
   ("PendingBalanceAt", "PendingBalanceAt"),
   ("PendingCallContract", "PendingCallContract"),
   ("PendingCodeAt", "PendingCodeAt"),
   ("PendingNonceAt", "PendingNonceAt"),
   ("PendingStorageAt", "PendingStorageAt"),
   ("PendingTransactionCount", "PendingTransactionCount"),
   ("SendTransaction", "SendTransaction"),
   ("StorageAt", "StorageAt"),
   ("SubscribeFilterLogs", "SubscribeFilterLogs"),
   ("SubscribeNewHead", "SubscribeNewHead"),
   ("SuggestGasPrice", "SuggestGasPrice"),
   ("SuggestGasTipCap", "SuggestGasTipCap"),
   ("SyncProgress", "SyncProgress"),
   ("TransactionByHash", "BalanceAtTransactionByHash"),
   ("TransactionCount", "TransactionCount"),
   ("TransactionInBlock", "TransactionInBlock"),
   ("TransactionReceipt", "TransactionReceipt"),
   ("TransactionSender", "TransactionSender")]

/-- `prometheus.CounterOpts` fields used by `newMetrics`: name, help, and
the constant labels (a two-entry map, modelled as an assoc list). -/
structure CounterOpts where
  name : String
  help : String
  constLabels : List (String × String)
deriving DecidableEq, Repr

/-- `prometheus.HistogramOpts` fields used by `newMetrics`: name, help,
bucket upper bounds (all integral in the source), constant labels. -/
structure HistogramOpts where
  name : String
  help : String
  buckets : List Nat
  constLabels : List (String × String)
deriving DecidableEq, Repr

/-- A counter vector: its options and its variable label names. -/
structure CounterVec where
  opts : CounterOpts
  variableLabels : List String
deriving DecidableEq, Repr

/-- A histogram vector: its options and its variable label names. -/
structure HistogramVec where
  opts : HistogramOpts
  variableLabels : List String
deriving DecidableEq, Repr

/-- The `metrics` struct (`prometheus.go` lines 10-13): one request
counter vector and one latency histogram vector. -/
structure metrics where
  req : CounterVec
  latency : HistogramVec
deriving DecidableEq, Repr

/-- Label-name constants (`prometheus.go` lines 15-21). -/
def labelApp : String := "app"

/-- Constant label name for the chain. -/
def labelChain : String := "chain"

/-- Variable label name for the attempt outcome. -/
def labelSuccess : String := "success"

/-- Variable label name for the operation. -/
def labelMethod : String := "method"

/-- Variable label name for the serving endpoint. -/
def labelClient : String := "client"

/-- `labels` (`prometheus.go` line 24): the variable labels of both vectors. -/
def labels : List String := [labelMethod, labelClient, labelSuccess]

/-- `latencyBucket` (`prometheus.go` lines 25-27). -/
def latencyBucket : List Nat := [2, 4, 8, 16, 32, 64, 128, 256, 512, 1024, 2048]

/-- `newMetrics` (`prometheus.go` lines 30-51): builds the two aggregates
with constant labels `app`/`chain` from the construction arguments. -/
def newMetrics (appName chainName : String) : metrics :=
  { req :=
      { opts :=
          { name := "rpc_request_total"
            help := "RPC requests counts"
            constLabels := [(labelApp, appName), (labelChain, chainName)] }
        variableLabels := labels }
    latency :=
      { opts :=
          { name := "rpc_latency_milliseconds"
            help := "RPC request latency in milliseconds"
            buckets := latencyBucket
            constLabels := [(labelApp, appName), (labelChain, chainName)] }
        variableLabels := labels } }

/-- The facade value `New` returns on success: the config and the
`*metrics` pointer, nil (`none`) when prometheus is disabled. -/
structure NewClient where
  cfg : Config
  metricsAgg : Option metrics
deriving DecidableEq, Repr

/-- Side effects of one `New` run: which connection handles were opened
(dial succeeded) and closed, and whether the aggregates were registered. -/
structure NewEffects where
  primaryOpened : Bool
  secondaryOpened : Bool
  primaryClosed : Bool
  secondaryClosed : Bool
  metricsRegistered : Bool
deriving DecidableEq, Repr

/-- `New` (`ethclient.go` lines 41-75): validate the config, dial the
primary then the secondary endpoint, then build the client and, when
`EnablePrometheus`, build and register the aggregates. The two dial
outcomes are environment parameters (`none` = success). Each early
`return nil, err` leaves the effects exactly as they stood: in
particular the secondary-dial failure path returns without closing the
already-opened primary handle. -/
def New (appName chain : String) (cfg : Config)
    (dialPrimary dialSecondary : Option GoError) :
    GoResult GoError NewClient × NewEffects :=
  match cfg.Valid with
  | some msg => (.err (.other msg), ⟨false, false, false, false, false⟩)
  | none =>
    match dialPrimary with
    | some e => (.err e, ⟨false, false, false, false, false⟩)
    | none =>
      match dialSecondary with
      | some e => (.err e, ⟨true, false, false, false, false⟩)
      | none =>
        if cfg.EnablePrometheus then
          (.ok ⟨cfg, some (newMetrics appName chain)⟩,
            ⟨true, true, false, false, true⟩)
        else
          (.ok ⟨cfg, none⟩, ⟨true, true, false, false, false⟩)

/-- A well-formed sample config used by concrete witnesses. -/
def cfgSample : Config :=
  { EnablePrometheus := true
    RpcUrl := "http://primary.example"
    RpcName := "main"
    FailoverRpcUrl := "http://backup.example"
    FailoverRpcName := "backup" }

/-- C1: for every operation, when the primary attempt returns a non-nil
error that is neither cancellation nor deadline expiry, the secondary is
invoked exactly once, exactly two observations are appended — first the
primary client label with success false, then the failover client label
with success equal to the secondary's outcome — and the secondary's
result and error are returned verbatim, with no third attempt. -/
theorem dispatch_failover_path {ρ : Type} (m0 : List Observation)
    (opName rpcName failoverRpcName : String) (r r2 : ρ)
    (e : GoError) (err2 : Option GoError)
    (h1 : e ≠ GoError.canceled) (h2 : e ≠ GoError.deadlineExceeded) :
    dispatch (some m0) opName rpcName failoverRpcName (r, some e) (r2, err2) =
      .ok ⟨m0 ++ [⟨opName, rpcName, false⟩, ⟨opName, failoverRpcName, err2.isNone⟩],
        1, r2, err2⟩ := by
  have hs : shouldFailover e = true := by
    simp [shouldFailover, h1, h2]
  simp [dispatch, Observe, hs]

/-- Witness for C1 at a concrete transport error on the primary and a
successful secondary. -/
theorem dispatch_failover_path_witness :
    dispatch (some []) "BalanceAt" "main" "backup"
        ((7 : Int), some (GoError.other "connection refused")) ((42 : Int), none) =
      .ok ⟨[⟨"BalanceAt", "main", false⟩, ⟨"BalanceAt", "backup", true⟩],
        1, 42, none⟩ :=
  dispatch_failover_path [] "BalanceAt" "main" "backup" 7 42
    (GoError.other "connection refused") none (by decide) (by decide)

/-- C2: for every operation, when the primary attempt returns a nil error,
the primary's result is returned with a nil error, the secondary is
invoked zero times, and exactly one observation is appended, carrying
the primary client label and success true. -/
theorem dispatch_primary_success {ρ : Type} (m0 : List Observation)
    (opName rpcName failoverRpcName : String) (r : ρ)
    (secondaryCall : ρ × Option GoError) :
    dispatch (some m0) opName rpcName failoverRpcName (r, none) secondaryCall =
      .ok ⟨m0 ++ [⟨opName, rpcName, true⟩], 0, r, none⟩ := by
  simp [dispatch, Observe]

/-- C3: for every operation, when the primary attempt fails with the
cancellation or the deadline sentinel, the secondary is invoked zero
times, exactly one observation is appended (primary client label,
success false), and the primary's error is returned unchanged. -/
theorem dispatch_no_failover_on_cancellation {ρ : Type} (m0 : List Observation)
    (opName rpcName failoverRpcName : String) (r : ρ) (e : GoError)
    (secondaryCall : ρ × Option GoError)
    (h : e = GoError.canceled ∨ e = GoError.deadlineExceeded) :
    dispatch (some m0) opName rpcName failoverRpcName (r, some e) secondaryCall =
      .ok ⟨m0 ++ [⟨opName, rpcName, false⟩], 0, r, some e⟩ := by
  rcases h with h | h <;> subst h <;> simp [dispatch, Observe, shouldFailover]

/-- Witness for C3 at the cancellation sentinel. -/
theorem dispatch_no_failover_on_cancellation_witness :
    dispatch (some []) "BlockNumber" "main" "backup"
        ((0 : Int), some GoError.canceled) ((5 : Int), none) =
      .ok ⟨[⟨"BlockNumber", "main", false⟩], 0, 0, some GoError.canceled⟩ :=
  dispatch_no_failover_on_cancellation [] "BlockNumber" "main" "backup" 0
    GoError.canceled ((5 : Int), none) (Or.inl rfl)

/-- C4: the policy classifies an error as no-failover exactly when it is
the caller-side cancellation or deadline sentinel, and classifies every
other error as failover with no distinction by its content; a nil error
never reaches the policy, whose domain is non-nil errors. -/
theorem shouldFailover_classification (e : GoError) :
    (shouldFailover e = false ↔
      (e = GoError.canceled ∨ e = GoError.deadlineExceeded)) ∧
    (∀ m1 m2 : String,
      shouldFailover (GoError.other m1) = shouldFailover (GoError.other m2)) := by
  constructor
  · cases e <;> simp [shouldFailover]
  · intro m1 m2
    rfl

/-- C5 is violated by the code: the transaction-by-hash operation records
its observations under the method label "BalanceAtTransactionByHash",
which differs from its own name "TransactionByHash"; evaluated here on
a successful primary attempt. -/
theorem transactionByHash_label_mismatch :
    ("TransactionByHash", "BalanceAtTransactionByHash") ∈ opMetricLabels ∧
    "BalanceAtTransactionByHash" ≠ "TransactionByHash" ∧
    TransactionByHash (some []) "main" "backup" ((0 : Int), none) ((0 : Int), none) =
      .ok ⟨[⟨"BalanceAtTransactionByHash", "main", true⟩], 0, 0, none⟩ := by
  refine ⟨by decide, by decide, rfl⟩

/-- C6 is violated by the code: `Observe` on a nil recorder dereferences
the nil pointer and panics instead of being a no-op, so any operation
dispatched with metrics disabled (nil `*metrics`) panics as well. -/
theorem observe_nil_recorder_panics :
    Observe none "BalanceAt" "main" true = .err GoPanic.nilPointerDereference ∧
    BalanceAt none "main" "backup" ((0 : Int), none) ((0 : Int), none) =
      .err GoPanic.nilPointerDereference :=
  ⟨rfl, rfl⟩

/-- C7: construction fails whenever either dial fails — in particular when
the primary dial succeeds and the secondary dial fails — returning the
dial error with no facade value and without registering any metric
aggregates. -/
theorem new_dial_failure_no_partial_facade (appName chain : String)
    (cfg : Config) (e : GoError) (dialSecondary : Option GoError)
    (h : cfg.Valid = none) :
    ((New appName chain cfg (some e) dialSecondary).1 = .err e ∧
      (New appName chain cfg (some e) dialSecondary).2.metricsRegistered = false) ∧
    ((New appName chain cfg none (some e)).1 = .err e ∧
      (New appName chain cfg none (some e)).2.metricsRegistered = false) := by
  simp [New, h]

/-- Witness for C7 at a valid sample config and a concrete dial error. -/
theorem new_dial_failure_no_partial_facade_witness :
    ((New "app" "mainnet" cfgSample (some (GoError.other "dial tcp refused")) none).1 =
        .err (GoError.other "dial tcp refused") ∧
      (New "app" "mainnet" cfgSample
          (some (GoError.other "dial tcp refused")) none).2.metricsRegistered = false) ∧
    ((New "app" "mainnet" cfgSample none (some (GoError.other "dial tcp refused"))).1 =
        .err (GoError.other "dial tcp refused") ∧
      (New "app" "mainnet" cfgSample none
          (some (GoError.other "dial tcp refused"))).2.metricsRegistered = false) :=
  new_dial_failure_no_partial_facade "app" "mainnet" cfgSample
    (GoError.other "dial tcp refused") none (by decide)

/-- C8: config validation errors for every config in which either name has
byte length at least 32, and returns ok for every config whose names
have byte length below 32 and whose required fields are non-empty. -/
theorem valid_name_length (cfg : Config) :
    ((nameLenLimit ≤ cfg.RpcName.utf8ByteSize ∨
        nameLenLimit ≤ cfg.FailoverRpcName.utf8ByteSize) →
      cfg.Valid ≠ none) ∧
    (cfg.RpcName.utf8ByteSize < nameLenLimit →
      cfg.FailoverRpcName.utf8ByteSize < nameLenLimit →
      cfg.RpcUrl ≠ "" → cfg.RpcName ≠ "" →
      cfg.FailoverRpcUrl ≠ "" → cfg.FailoverRpcName ≠ "" →
      cfg.Valid = none) := by
  constructor
  · intro h
    rcases h with h | h
    · simp [Config.Valid, h]
    · by_cases h1 : nameLenLimit ≤ cfg.RpcName.utf8ByteSize
      · simp [Config.Valid, h1]
      · simp [Config.Valid, h1, h]
  · intro h1 h2 _ _ _ _
    simp [Config.Valid, Nat.not_le.mpr h1, Nat.not_le.mpr h2]

/-- A config whose primary name has 33 bytes, used by the C8 witness. -/
def cfgLongName : Config :=
  { cfgSample with RpcName := "abcdefghijklmnopqrstuvwxyz_abcdef" }

/-- Witness for C8: a 33-byte name is rejected, the sample config passes. -/
theorem valid_name_length_witness :
    cfgLongName.Valid ≠ none ∧ cfgSample.Valid = none :=
  ⟨(valid_name_length cfgLongName).1 (by decide),
   (valid_name_length cfgSample).2 (by decide) (by decide) (by decide)
     (by decide) (by decide) (by decide)⟩

/-- C9: the aggregates built at construction are one counter named
rpc_request_total and one histogram named rpc_latency_milliseconds,
both with variable labels method, client, success and constant labels
app and chain from the construction arguments, and the histogram's
buckets are exactly 2 through 2048 doubling. -/
theorem newMetrics_aggregates (appName chainName : String) :
    (newMetrics appName chainName).req.opts.name = "rpc_request_total" ∧
    (newMetrics appName chainName).req.variableLabels =
      ["method", "client", "success"] ∧
    (newMetrics appName chainName).req.opts.constLabels =
      [("app", appName), ("chain", chainName)] ∧
    (newMetrics appName chainName).latency.opts.name =
      "rpc_latency_milliseconds" ∧
    (newMetrics appName chainName).latency.variableLabels =
      ["method", "client", "success"] ∧
    (newMetrics appName chainName).latency.opts.constLabels =
      [("app", appName), ("chain", chainName)] ∧
    (newMetrics appName chainName).latency.opts.buckets =
      [2, 4, 8, 16, 32, 64, 128, 256, 512, 1024, 2048] :=
  ⟨rfl, rfl, rfl, rfl, rfl, rfl, rfl⟩

/-- C10: when the primary dial succeeds and the secondary dial fails,
construction returns the error while the already-opened primary handle
stays open — no close is issued on the early return. -/
theorem new_leaves_primary_open_on_secondary_dial_failure
    (appName chain : String) (cfg : Config) (e : GoError)
    (h : cfg.Valid = none) :
    (New appName chain cfg none (some e)).1 = .err e ∧
    (New appName chain cfg none (some e)).2.primaryOpened = true ∧
    (New appName chain cfg none (some e)).2.primaryClosed = false := by
  simp [New, h]

/-- Witness for C10 at the sample config and a concrete dial error. -/
theorem new_leaves_primary_open_on_secondary_dial_failure_witness :
    (New "svc" "goerli" cfgSample none (some (GoError.other "no route to host"))).1 =
      .err (GoError.other "no route to host") ∧
    (New "svc" "goerli" cfgSample none
        (some (GoError.other "no route to host"))).2.primaryOpened = true ∧
    (New "svc" "goerli" cfgSample none
        (some (GoError.other "no route to host"))).2.primaryClosed = false :=
  new_leaves_primary_open_on_secondary_dial_failure "svc" "goerli" cfgSample
    (GoError.other "no route to host") (by decide)

end FailoverEthclient
